import Mathlib

/-!
Shallow embedding of the overlay stack manager of
`src/packages/overlay/src/vaadin-overlay.js` (class `Overlay`).

An `Overlay` value models one `<vaadin-overlay>` element: its reflected
properties (`modeless`, `opened`, ...), the state attributes (`opening`,
`closing`), the private fields (`__zIndex`, `_previousDocumentPointerEvents`,
`_mouseDownInside`, `_mouseUpInside`, `_placeholder`, `__restoreFocusNode`,
the pending `animationend` handlers) and the relevant style properties
(the inline `z-index` of the host and the `pointer-events` of the
`[part="overlay"]` child).  DOM nodes are identified by natural numbers;
`===` on elements becomes equality of ids.

A `State` models the document-global data the class reads and writes:
the list of overlay objects in existence (`all`), the ids of the overlays
currently attached as children of `document.body` in DOM order
(`children`), and `document.body.style.pointerEvents` (`bodyPE`).
-/

/-- One `<vaadin-overlay>` element (class `Overlay` of vaadin-overlay.js). -/
structure Overlay where
  id : Nat
  modeless : Bool
  opened : Bool
  /-- `hasAttribute('closing')`. -/
  closingAttr : Bool
  /-- `hasAttribute('opening')`. -/
  openingAttr : Bool
  /-- `this.__zIndex` (a number once the overlay has been attached). -/
  zIndex : Int
  /-- Inline `this.style.zIndex`; `none` models the empty string. -/
  inlineZ : Option Int
  /-- The stylesheet z-index picked up by `getComputedStyle` when no inline
  value is set (`200` from the host styles unless themed). -/
  defaultZ : Int
  /-- `pointer-events` style of the `[part="overlay"]` child; `none` models
  the property being absent. -/
  partPointerEvents : Option String
  /-- `this._previousDocumentPointerEvents`; `none` models `undefined`. -/
  prevDocPE : Option String
  /-- `this._mouseDownInside`. -/
  mouseDownInside : Bool
  /-- `this._mouseUpInside`. -/
  mouseUpInside : Bool
  /-- Whether `this.__closingHandler` is currently a function. -/
  closingHandler : Bool
  /-- Whether `this.__openingHandler` is currently a function. -/
  openingHandler : Bool
  /-- Whether `this._placeholder` comment node exists. -/
  placeholder : Bool
  restoreFocusOnClose : Bool
  /-- `this.restoreFocusNode` (node id). -/
  restoreFocusNode : Option Nat
  /-- `this.__restoreFocusNode`, captured at open time. -/
  capturedFocusNode : Option Nat
  deriving DecidableEq, Repr

/-- Document-global state read and written by the overlay class. -/
structure State where
  /-- All overlay objects in existence (order irrelevant, ids unique). -/
  all : List Overlay
  /-- Ids of overlays currently children of `document.body`, in DOM order. -/
  children : List Nat
  /-- `document.body.style.pointerEvents` (empty string when unset). -/
  bodyPE : String
  deriving DecidableEq, Repr

/-- Look up the overlay object with the given id. -/
def State.get? (s : State) (i : Nat) : Option Overlay :=
  s.all.find? (fun o => o.id == i)

/-- Apply `f` to the overlay object with id `i` (mutation of that element). -/
def updateOverlay (s : State) (i : Nat) (f : Overlay → Overlay) : State :=
  { s with all := s.all.map (fun o => if o.id == i then f o else o) }

/-- The JS sort comparator `(a, b) => a.__zIndex - b.__zIndex || 0`:
ascending order of `__zIndex`. -/
def zle (a b : Overlay) : Prop := a.zIndex ≤ b.zIndex

instance : DecidableRel zle := fun a b => inferInstanceAs (Decidable (a.zIndex ≤ b.zIndex))

instance : IsTotal Overlay zle := ⟨fun a b => Int.le_total a.zIndex b.zIndex⟩

instance : IsTrans Overlay zle := ⟨fun _ _ _ hab hbc => le_trans hab hbc⟩

/-- `Array.prototype.sort` with the comparator above: a stable ascending
sort by `__zIndex`. -/
def sortByZ (l : List Overlay) : List Overlay := List.insertionSort zle l

/-- `Overlay.__attachedInstances`: the children of `document.body` that are
overlays and do not have the `closing` attribute, sorted by `__zIndex`. -/
def attachedInstances (s : State) : List Overlay :=
  sortByZ ((s.children.filterMap s.get?).filter (fun o => !o.closingAttr))

/-- Getter `_last`: `this === Overlay.__attachedInstances.pop()`, i.e. the
overlay with id `i` is the last element of the attached-instances stack. -/
def isLast (s : State) (i : Nat) : Bool :=
  (attachedInstances s).getLast?.map Overlay.id == some i

/-- The `getComputedStyle(this).zIndex` value: the inline style when set,
otherwise the stylesheet default. -/
def computedZ (o : Overlay) : Int := o.inlineZ.getD o.defaultZ

/-- The final two assignments of `bringToFront`: `this.style.zIndex = zIndex`
and `this.__zIndex = zIndex || parseFloat(getComputedStyle(this).zIndex)`,
where `newZ` is the computed `zIndex` variable (`none` for the empty string;
a JS number is falsy exactly when it is `0`). -/
def setZIndex (newZ : Option Int) (o : Overlay) : Overlay :=
  let o' := { o with inlineZ := newZ }
  { o' with
    zIndex :=
      match newZ with
      | some z => if z ≠ 0 then z else computedZ o'
      | none => computedZ o' }

/-- `bringToFront()`: take the frontmost other attached instance; if there is
one, use its `__zIndex + 1` as the new inline z-index, else clear the inline
z-index; `__zIndex` becomes `zIndex || parseFloat(getComputedStyle(this).zIndex)`. -/
def bringToFront (s : State) (i : Nat) : State :=
  let others := (attachedInstances s).filter (fun o => o.id != i)
  match others.getLast? with
  | some frontmost => updateOverlay s i (setZIndex (some (frontmost.zIndex + 1)))
  | none => updateOverlay s i (setZIndex none)

/-- `_enterModalState()`: if body pointer-events is not already `'none'`,
record it and set it to `'none'`; then disable pointer events on the
`[part="overlay"]` of every other attached instance. -/
def enterModalState (s : State) (i : Nat) : State :=
  let s1 :=
    if s.bodyPE ≠ "none" then
      { updateOverlay s i (fun o => { o with prevDocPE := some s.bodyPE }) with bodyPE := "none" }
    else s
  let targets := ((attachedInstances s1).filter (fun o => o.id != i)).map Overlay.id
  { s1 with all := s1.all.map (fun o =>
      if targets.contains o.id then { o with partPointerEvents := some "none" } else o) }

/-- The `while ((el = instances.pop()))` loop of `_exitModalState`, run on the
reversed attached-instances list: skip the current instance, collect every
overlay whose `pointer-events` is removed, and stop after the last modal. -/
def exitWalk (i : Nat) : List Overlay → List Nat
  | [] => []
  | el :: rest =>
      if el.id == i then exitWalk i rest
      else if el.modeless then el.id :: exitWalk i rest
      else [el.id]

/-- The body-restore step of `_exitModalState`: if
`this._previousDocumentPointerEvents !== undefined`, write it back to the
body style and delete it. -/
def exitRestore (s : State) (i : Nat) : State :=
  match s.get? i with
  | some o =>
      match o.prevDocPE with
      | some v => { updateOverlay s i (fun o => { o with prevDocPE := none }) with bodyPE := v }
      | none => s
  | none => s

/-- `_exitModalState()`: restore body pointer-events if this instance recorded
a previous value, then walk the attached instances from topmost down,
removing the `pointer-events` property until (and including) the last modal. -/
def exitModalState (s : State) (i : Nat) : State :=
  let s1 := exitRestore s i
  let cleared := exitWalk i (attachedInstances s1).reverse
  { s1 with all := s1.all.map (fun o =>
      if cleared.contains o.id then { o with partPointerEvents := none } else o) }

/-- Kinds of `CustomEvent`s the overlay dispatches. -/
inductive EvKind
  | outsideClick
  | escapePress
  | closeEvt
  | closingEvt
  deriving DecidableEq, Repr

/-- A dispatched event: its kind and whether it was created cancelable. -/
structure Ev where
  kind : EvKind
  cancelable : Bool
  deriving DecidableEq, Repr

/-- `close(sourceEvent)`: dispatch the cancelable `vaadin-overlay-close`
event; unless a listener called `preventDefault` (`closePrev`), set
`opened` to `false`.  Listener behaviour is an oracle parameter. -/
def closeOverlay (s : State) (i : Nat) (closePrev : Bool) : State × List Ev :=
  if closePrev then (s, [⟨EvKind.closeEvt, true⟩])
  else (updateOverlay s i (fun o => { o with opened := false }), [⟨EvKind.closeEvt, true⟩])

/-- `_mouseDownListener(event)`: record whether the mousedown path included
the `[part="overlay"]` element. -/
def mouseDownListener (s : State) (i : Nat) (inPath : Bool) : State :=
  updateOverlay s i (fun o => { o with mouseDownInside := inPath })

/-- `_mouseUpListener(event)`: record whether the mouseup path included
the `[part="overlay"]` element. -/
def mouseUpListener (s : State) (i : Nat) (inPath : Bool) : State :=
  updateOverlay s i (fun o => { o with mouseUpInside := inPath })

/-- `_outsideClickListener(event)` for the overlay with id `i`.  `inPath` is
`event.composedPath().includes(this.$.overlay)`; `outsidePrev` and
`closePrev` are oracles for listeners cancelling the
`vaadin-overlay-outside-click` and `vaadin-overlay-close` events. -/
def outsideClickListener (s : State) (i : Nat) (inPath : Bool)
    (outsidePrev closePrev : Bool) : State × List Ev :=
  match s.get? i with
  | none => (s, [])
  | some o =>
    if inPath || o.mouseDownInside || o.mouseUpInside then
      (updateOverlay s i (fun o => { o with mouseDownInside := false, mouseUpInside := false }), [])
    else if !isLast s i then (s, [])
    else
      let rest := if o.opened && !outsidePrev then closeOverlay s i closePrev else (s, [])
      (rest.1, ⟨EvKind.outsideClick, true⟩ :: rest.2)

/-- `_keydownListener(event)` for the overlay with id `i`.  `inPath` is
`event.composedPath().includes(this.$.overlay)` (where keyboard focus is);
`key` is `event.key`; `escPrev` and `closePrev` are listener oracles for the
`vaadin-overlay-escape-press` and `vaadin-overlay-close` events. -/
def keydownListener (s : State) (i : Nat) (inPath : Bool) (key : String)
    (escPrev closePrev : Bool) : State × List Ev :=
  match s.get? i with
  | none => (s, [])
  | some o =>
    if !isLast s i then (s, [])
    else if o.modeless && !inPath then (s, [])
    else if key = "Escape" then
      let rest := if o.opened && !escPrev then closeOverlay s i closePrev else (s, [])
      (rest.1, ⟨EvKind.escapePress, true⟩ :: rest.2)
    else (s, [])

/-- A static node tree for `_deepContains`: `parentNode` and shadow `host`
links, the owner document node, and a recursion bound (any bound at least the
number of nodes is faithful for the acyclic trees the DOM guarantees). -/
structure Dom where
  parentNode : Nat → Option Nat
  host : Nat → Option Nat
  doc : Nat
  fuel : Nat

/-- `root.contains(node)`: `node` is `root` or reachable from it by
following `parentNode` links (the plain node tree, no shadow hops). -/
def containsNode (d : Dom) (root : Nat) : Nat → Nat → Bool
  | 0, _ => false
  | fuel + 1, n =>
      n == root ||
        match d.parentNode n with
        | some p => containsNode d root fuel p
        | none => false

/-- The `while (n && n !== doc && n !== this) n = n.parentNode || n.host`
loop of `_deepContains`: the node where the walk stops, if any. -/
def deepWalk (d : Dom) (root : Nat) : Nat → Nat → Option Nat
  | 0, n => some n
  | fuel + 1, n =>
      if n == d.doc || n == root then some n
      else
        match d.parentNode n with
        | some p => deepWalk d root fuel p
        | none =>
          match d.host n with
          | some h => deepWalk d root fuel h
          | none => none

/-- `_deepContains(node)`: plain containment, or the parent/host walk from
`node` ends at this overlay (id `root`). -/
def deepContains (d : Dom) (root n : Nat) : Bool :=
  containsNode d root d.fuel n || deepWalk d root d.fuel n == some root

/-- Effect of running a pending `__openingHandler` via
`_flushAnimation('opening')`: `_finishOpening` removes the `opening`
attribute, then the handler removes itself. -/
def flushOpening (s : State) (i : Nat) : State :=
  match s.get? i with
  | some o =>
      if o.openingHandler then
        updateOverlay s i (fun o => { o with openingAttr := false, openingHandler := false })
      else s
  | none => s

/-- `_finishClosing()`: `_detachOverlay` moves the element back to its
placeholder (it leaves `document.body`, the placeholder is removed), the
`pointer-events` property of `[part="overlay"]` is removed, and the
`closing` attribute is removed. -/
def finishClosing (s : State) (i : Nat) : State :=
  let s1 := updateOverlay s i (fun o =>
    { o with placeholder := false, partPointerEvents := none, closingAttr := false })
  { s1 with children := s1.children.filter (fun c => c != i) }

/-- Effect of `_flushAnimation('closing')`: if a `__closingHandler` is
pending, it runs `_finishClosing` and removes itself. -/
def flushClosing (s : State) (i : Nat) : State :=
  match s.get? i with
  | some o =>
      if o.closingHandler then
        updateOverlay (finishClosing s i) i (fun o => { o with closingHandler := false })
      else s
  | none => s

/-- `_attachOverlay()`: create the placeholder at the current position,
append the element to `document.body` (moving it to the end of the child
list), and call `bringToFront`. -/
def attachOverlay (s : State) (i : Nat) : State :=
  let s1 := updateOverlay s i (fun o => { o with placeholder := true })
  bringToFront { s1 with children := s1.children.filter (fun c => c != i) ++ [i] } i

/-- The part of `_animatedOpening()` after the closing-flush guard:
`_attachOverlay()`, `_enterModalState()` unless `this.modeless`, set the
`opening` attribute, and either enqueue the opening animation handler
(`_shouldAnimate()` true) or `_finishOpening()` at once.  `modeless` is the
value of `this.modeless`. -/
def animatedOpeningTail (s : State) (i : Nat) (modeless shouldAnimate : Bool) : State :=
  let s2 := attachOverlay s i
  let s3 := if !modeless then enterModalState s2 i else s2
  let s4 := updateOverlay s3 i (fun o => { o with openingAttr := true })
  if shouldAnimate then updateOverlay s4 i (fun o => { o with openingHandler := true })
  else updateOverlay s4 i (fun o => { o with openingAttr := false })

/-- `_animatedOpening()`: flush a closing animation still in flight when the
element is a body child with the `closing` attribute, then attach, enter
modal state unless modeless, set the `opening` attribute, and either enqueue
the opening animation handler (`shouldAnimate`) or finish opening at once. -/
def animatedOpening (s : State) (i : Nat) (shouldAnimate : Bool) : State :=
  match s.get? i with
  | none => s
  | some o =>
    let s1 := if s.children.contains i && o.closingAttr then flushClosing s i else s
    animatedOpeningTail s1 i o.modeless shouldAnimate

/-- Environment of `_animatedClosing` resolved from the live DOM: the node
tree, the deepest active element (result of `_getActiveElement`), the
`document.body` node, and whether `_shouldAnimate()` holds. -/
structure ClosingCtx where
  dom : Dom
  active : Nat
  body : Nat
  shouldAnimate : Bool

/-- Result of `_animatedClosing`: the new state, the dispatched events, and
the node whose `focus()` was scheduled with `setTimeout`, if any. -/
structure ClosingResult where
  state : State
  events : List Ev
  focusScheduled : Option Nat
  deriving DecidableEq, Repr

/-- `_animatedClosing()`: flush an in-flight opening animation, and if the
overlay was attached (`this._placeholder`), exit modal state, restore focus
to `restoreFocusNode || __restoreFocusNode` when focus restoration is enabled
and the active element is the body or deep-contained in this overlay, set the
`closing` attribute, dispatch `vaadin-overlay-closing`, and either enqueue
the closing animation handler or finish closing at once. -/
def animatedClosing (s : State) (i : Nat) (ctx : ClosingCtx) : ClosingResult :=
  match s.get? i with
  | none => ⟨s, [], none⟩
  | some o =>
    let s1 := if o.openingAttr then flushOpening s i else s
    if o.placeholder then
      let s2 := exitModalState s1 i
      let restoreFocusNode := o.restoreFocusNode.or o.capturedFocusNode
      let focusStep :=
        match restoreFocusNode with
        | some t =>
            if o.restoreFocusOnClose then
              let sched :=
                if ctx.active == ctx.body || deepContains ctx.dom i ctx.active then some t
                else none
              (updateOverlay s2 i (fun o => { o with capturedFocusNode := none }), sched)
            else (s2, none)
        | none => (s2, none)
      let s3 := updateOverlay focusStep.1 i (fun o => { o with closingAttr := true })
      let s4 :=
        if ctx.shouldAnimate then updateOverlay s3 i (fun o => { o with closingHandler := true })
        else finishClosing s3 i
      ⟨s4, [⟨EvKind.closingEvt, false⟩], focusStep.2⟩
    else ⟨s1, [], none⟩

/-! Basic lemmas about state lookup and update. -/

theorem get?_mapAll (s : State) (g : Overlay → Overlay) (hid : ∀ o, (g o).id = o.id)
    (c : Nat) : State.get? { s with all := s.all.map g } c = (s.get? c).map g := by
  unfold State.get?
  rw [List.find?_map]
  have hp : ((fun o => o.id == c) ∘ g) = fun o => o.id == c := by
    funext o
    simp [Function.comp, hid]
  rw [hp]

theorem get?_updateOverlay (s : State) (i : Nat) (f : Overlay → Overlay)
    (hf : ∀ o, (f o).id = o.id) (c : Nat) :
    (updateOverlay s i f).get? c = (s.get? c).map (fun o => if o.id == i then f o else o) := by
  unfold updateOverlay
  exact get?_mapAll s _ (fun o => by by_cases h : o.id == i <;> simp [h, hf]) c

theorem updateOverlay_children (s : State) (i : Nat) (f : Overlay → Overlay) :
    (updateOverlay s i f).children = s.children := rfl

theorem updateOverlay_bodyPE (s : State) (i : Nat) (f : Overlay → Overlay) :
    (updateOverlay s i f).bodyPE = s.bodyPE := rfl

theorem filterMap_get?_updateOverlay (s : State) (i : Nat) (f : Overlay → Overlay)
    (hf : ∀ o, (f o).id = o.id) (cs : List Nat) :
    cs.filterMap (updateOverlay s i f).get? =
      (cs.filterMap s.get?).map (fun o => if o.id == i then f o else o) := by
  rw [List.map_filterMap]
  congr 1
  funext c
  rw [get?_updateOverlay s i f hf c]

/-! Lemmas about the sorted attached-instances view. -/

theorem sorted_attachedInstances (s : State) : List.Sorted zle (attachedInstances s) :=
  List.sorted_insertionSort zle _

theorem zIndex_le_getLast {t : Overlay} :
    ∀ L : List Overlay, List.Sorted zle L → L.getLast? = some t →
      ∀ a ∈ L, a.zIndex ≤ t.zIndex := by
  intro L
  induction L with
  | nil => intro _ ht; simp at ht
  | cons x xs ih =>
    intro hs ht a ha
    cases xs with
    | nil =>
      rw [List.getLast?_singleton] at ht
      rw [List.mem_singleton] at ha
      rw [Option.some.injEq] at ht
      rw [ha, ht]
    | cons y ys =>
      rw [List.getLast?_cons_cons] at ht
      rcases List.mem_cons.mp ha with rfl | hmem
      · have htail : t ∈ y :: ys := List.mem_of_mem_getLast? (by rw [ht]; rfl)
        exact List.rel_of_pairwise_cons hs htail
      · exact ih hs.of_cons ht a hmem

theorem orderedInsert_eq_cons (a : Overlay) (m : List Overlay) (h : ∀ c ∈ m, zle a c) :
    List.orderedInsert zle a m = a :: m := by
  cases m with
  | nil => rfl
  | cons b l => exact List.orderedInsert_of_le zle l (h b (List.mem_cons_self b l))

theorem filter_orderedInsert (p : Overlay → Bool) (a : Overlay) :
    ∀ l : List Overlay, List.Sorted zle l →
      (List.orderedInsert zle a l).filter p =
        if p a then List.orderedInsert zle a (l.filter p) else l.filter p := by
  intro l
  induction l with
  | nil =>
    intro _
    by_cases hpa : p a <;> simp [List.orderedInsert, hpa]
  | cons b l ih =>
    intro hs
    by_cases hab : zle a b
    · rw [List.orderedInsert_of_le zle l hab]
      have hall : ∀ c ∈ (b :: l).filter p, zle a c := by
        intro c hc
        rcases List.mem_cons.mp (List.mem_of_mem_filter hc) with rfl | hcl
        · exact hab
        · exact le_trans hab (List.rel_of_pairwise_cons hs hcl)
      by_cases hpa : p a
      · rw [orderedInsert_eq_cons a _ hall]
        simp [List.filter_cons, hpa]
      · simp [List.filter_cons, hpa]
    · have hins : List.orderedInsert zle a (b :: l) = b :: List.orderedInsert zle a l := by
        simp [List.orderedInsert, hab]
      rw [hins]
      by_cases hpb : p b <;> by_cases hpa : p a <;>
        simp [List.filter_cons, hpb, hpa, ih hs.of_cons, List.orderedInsert, hab]

theorem filter_sortByZ (p : Overlay → Bool) :
    ∀ l : List Overlay, (sortByZ l).filter p = sortByZ (l.filter p) := by
  intro l
  induction l with
  | nil => rfl
  | cons x xs ih =>
    show (List.orderedInsert zle x (sortByZ xs)).filter p = sortByZ ((x :: xs).filter p)
    rw [filter_orderedInsert p x (sortByZ xs) (List.sorted_insertionSort zle xs)]
    rw [List.filter_cons]
    by_cases hpx : p x
    · simp only [hpx, if_true]
      show List.orderedInsert zle x ((sortByZ xs).filter p) = List.orderedInsert zle x (sortByZ (xs.filter p))
      rw [ih]
    · simp only [hpx, if_false]
      exact ih

theorem map_sortByZ (g : Overlay → Overlay) (hz : ∀ o, (g o).zIndex = o.zIndex)
    (l : List Overlay) : sortByZ (l.map g) = (sortByZ l).map g := by
  unfold sortByZ
  exact (List.map_insertionSort zle zle g l
    (fun a _ b _ => by unfold zle; rw [hz a, hz b])).symm

theorem attachedInstances_updateOverlay (s : State) (i : Nat) (f : Overlay → Overlay)
    (hid : ∀ o, (f o).id = o.id) (hclose : ∀ o, (f o).closingAttr = o.closingAttr)
    (hz : ∀ o, (f o).zIndex = o.zIndex) :
    attachedInstances (updateOverlay s i f) =
      (attachedInstances s).map (fun o => if o.id == i then f o else o) := by
  unfold attachedInstances
  rw [updateOverlay_children, filterMap_get?_updateOverlay s i f hid]
  rw [List.filter_map]
  have hp : ((fun o => !o.closingAttr) ∘ fun o => if o.id == i then f o else o) =
      fun o => !o.closingAttr := by
    funext o
    by_cases h : o.id == i <;> simp [Function.comp, h, hclose]
  rw [hp]
  exact map_sortByZ _ (fun o => by by_cases h : o.id == i <;> simp [h, hz]) _

theorem others_updateOverlay (s : State) (i : Nat) (f : Overlay → Overlay)
    (hid : ∀ o, (f o).id = o.id) (hclose : ∀ o, (f o).closingAttr = o.closingAttr) :
    (attachedInstances (updateOverlay s i f)).filter (fun o => o.id != i) =
      (attachedInstances s).filter (fun o => o.id != i) := by
  unfold attachedInstances
  rw [filter_sortByZ, filter_sortByZ]
  congr 1
  rw [updateOverlay_children, filterMap_get?_updateOverlay s i f hid]
  rw [List.filter_map]
  have hp : ((fun o => !o.closingAttr) ∘ fun o => if o.id == i then f o else o) =
      fun o => !o.closingAttr := by
    funext o
    by_cases h : o.id == i <;> simp [Function.comp, h, hclose]
  rw [hp, List.filter_map]
  have hq : ((fun o => o.id != i) ∘ fun o => if o.id == i then f o else o) =
      fun o => o.id != i := by
    funext o
    by_cases h : o.id == i <;> simp [Function.comp, h, hid]
  rw [hq]
  have hident : ∀ o ∈ (((s.children.filterMap s.get?).filter fun o => !o.closingAttr).filter
      fun o => o.id != i), (if o.id == i then f o else o) = o := by
    intro o ho
    have := List.of_mem_filter ho
    simp only [bne_iff_ne, ne_eq] at this
    simp [this]
  rw [List.map_congr_left hident]
  exact List.map_id _

/-! Lemmas about the `_exitModalState` walk. -/

theorem exitWalk_eq (i : Nat) :
    ∀ l : List Overlay,
      exitWalk i l =
        ((l.filter (fun o => o.id != i)).takeWhile (fun o => o.modeless) ++
          ((l.filter (fun o => o.id != i)).dropWhile (fun o => o.modeless)).take 1).map
            Overlay.id := by
  intro l
  induction l with
  | nil => rfl
  | cons el rest ih =>
    by_cases hid : el.id == i
    · have hne : (el.id != i) = false := by simp_all [bne]
      simp [exitWalk, hid, List.filter_cons, hne, ih]
    · have hne : (el.id != i) = true := by simp_all [bne]
      by_cases hm : el.modeless
      · simp [exitWalk, hid, hm, List.filter_cons, hne, List.takeWhile_cons, ih]
      · simp [exitWalk, hid, hm, List.filter_cons, hne, List.takeWhile_cons,
          List.dropWhile_cons]

theorem exitWalk_map (i : Nat) (g : Overlay → Overlay) (hid : ∀ o, (g o).id = o.id)
    (hm : ∀ o, (g o).modeless = o.modeless) :
    ∀ l : List Overlay, exitWalk i (l.map g) = exitWalk i l := by
  intro l
  induction l with
  | nil => rfl
  | cons el rest ih => simp [exitWalk, hid el, hm el, ih]

/-! Projection lemmas for the modal-state operations. -/

theorem attachedInstances_setBodyPE (s : State) (v : String) :
    attachedInstances { s with bodyPE := v } = attachedInstances s := rfl

theorem exitModalState_bodyPE (s : State) (i : Nat) (o : Overlay) (h : s.get? i = some o) :
    (exitModalState s i).bodyPE = match o.prevDocPE with | some v => v | none => s.bodyPE := by
  cases hp : o.prevDocPE with
  | some v => simp only [exitModalState, exitRestore, h, hp]
  | none => simp only [exitModalState, exitRestore, h, hp]

/-! Concrete states used by the witness theorems. -/

/-- A plain attached, open overlay used to build concrete test states. -/
def mkOverlay (i : Nat) (ml : Bool) (z : Int) : Overlay :=
  { id := i, modeless := ml, opened := true, closingAttr := false, openingAttr := false,
    zIndex := z, inlineZ := some z, defaultZ := 200, partPointerEvents := none,
    prevDocPE := none, mouseDownInside := false, mouseUpInside := false,
    closingHandler := false, openingHandler := false, placeholder := true,
    restoreFocusOnClose := false, restoreFocusNode := none, capturedFocusNode := none }

/-- Two attached modal overlays; overlay 2 is topmost. -/
def sTwo : State :=
  { all := [mkOverlay 1 false 200, mkOverlay 2 false 201], children := [1, 2],
    bodyPE := "none" }

/-- Claim C1: for every state of the document (hence after every sequence of
open and close operations), the derived stack `__attachedInstances` — the
attached, non-closing overlays sorted by `__zIndex` — ends in an overlay of
maximal `__zIndex`, and the dismissal-routing predicate `_last` holds exactly
for that last overlay. -/
theorem c1_topmost_routing (s : State) (t : Overlay)
    (ht : (attachedInstances s).getLast? = some t) :
    (∀ o ∈ attachedInstances s, o.zIndex ≤ t.zIndex) ∧
      (∀ j, isLast s j = true ↔ j = t.id) := by
  constructor
  · exact zIndex_le_getLast (attachedInstances s) (sorted_attachedInstances s) ht
  · intro j
    unfold isLast
    rw [ht]
    simp only [Option.map_some', beq_iff_eq, Option.some.injEq]
    exact eq_comm

/-- Witness for C1 on a concrete two-overlay stack. -/
theorem c1_topmost_routing_witness :
    (attachedInstances sTwo).getLast? = some (mkOverlay 2 false 201) ∧
      ((∀ o ∈ attachedInstances sTwo, o.zIndex ≤ 201) ∧
        (∀ j, isLast sTwo j = true ↔ j = 2)) :=
  ⟨by decide, c1_topmost_routing sTwo (mkOverlay 2 false 201) (by decide)⟩


/-! Lemmas about `bringToFront`. -/

theorem setZIndex_id (z : Option Int) (o : Overlay) : (setZIndex z o).id = o.id := rfl

theorem setZIndex_closingAttr (z : Option Int) (o : Overlay) :
    (setZIndex z o).closingAttr = o.closingAttr := rfl

theorem setZIndex_setZIndex (z : Option Int) (o : Overlay) :
    setZIndex z (setZIndex z o) = setZIndex z o := by
  cases z <;> rfl

theorem setZIndex_zIndex_some (z : Int) (o : Overlay) :
    (setZIndex (some z) o).zIndex = z := by
  unfold setZIndex computedZ
  by_cases hz : z = 0 <;> simp [hz]

theorem setZIndex_zIndex_none (o : Overlay) : (setZIndex none o).zIndex = o.defaultZ := rfl

/-- Reduction of `bringToFront` when some other attached instance exists. -/
theorem bringToFront_eq_some (s : State) (i : Nat) (f : Overlay)
    (h : ((attachedInstances s).filter (fun o => o.id != i)).getLast? = some f) :
    bringToFront s i = updateOverlay s i (setZIndex (some (f.zIndex + 1))) := by
  simp only [bringToFront]
  rw [h]

/-- Reduction of `bringToFront` when no other attached instance exists. -/
theorem bringToFront_eq_none (s : State) (i : Nat)
    (h : ((attachedInstances s).filter (fun o => o.id != i)).getLast? = none) :
    bringToFront s i = updateOverlay s i (setZIndex none) := by
  simp only [bringToFront]
  rw [h]

theorem updateOverlay_updateOverlay (s : State) (i : Nat) (f : Overlay → Overlay)
    (hid : ∀ o, (f o).id = o.id) (hff : ∀ o, f (f o) = f o) :
    updateOverlay (updateOverlay s i f) i f = updateOverlay s i f := by
  unfold updateOverlay
  simp only [List.map_map]
  congr 1
  apply List.map_congr_left
  intro o _
  by_cases h : o.id == i
  · have h2 : ((f o).id == i) = true := by rw [hid o]; exact h
    simp only [Function.comp, h, if_true, h2, hff]
  · simp only [Function.comp, h, if_false]
    simp [h]

/-- Claim C2: `bringToFront` assigns, as the overlay's new `__zIndex`, the
maximal `__zIndex` over all other attached non-closing instances plus one
(the frontmost other instance `f` closes the derived sorted stack, so its
`__zIndex` is that maximum), or the overlay's own computed default style
z-index when no other instance is attached. -/
theorem c2_bringToFront_assignment (s : State) (i : Nat) (o : Overlay)
    (h : s.get? i = some o) :
    (∀ f, ((attachedInstances s).filter (fun p => p.id != i)).getLast? = some f →
        ((bringToFront s i).get? i).map Overlay.zIndex = some (f.zIndex + 1) ∧
          ∀ p ∈ (attachedInstances s).filter (fun p => p.id != i), p.zIndex ≤ f.zIndex) ∧
      ((attachedInstances s).filter (fun p => p.id != i) = [] →
        ((bringToFront s i).get? i).map Overlay.zIndex = some o.defaultZ) := by
  have hoid : o.id = i := by
    have := List.find?_some h
    simpa using this
  constructor
  · intro f hf
    constructor
    · rw [bringToFront_eq_some s i f hf,
        get?_updateOverlay s i (setZIndex (some (f.zIndex + 1))) (fun o => rfl) i, h]
      simp [hoid, setZIndex_zIndex_some]
    · exact zIndex_le_getLast _ ((sorted_attachedInstances s).filter _) hf
  · intro he
    rw [bringToFront_eq_none s i (by rw [he]; rfl),
      get?_updateOverlay s i (setZIndex none) (fun o => rfl) i, h]
    simp [hoid, setZIndex_zIndex_none]

/-- Witness for C2: in the two-overlay stack, bringing overlay 1 to the front
assigns `__zIndex` 202, one more than the topmost other overlay's 201. -/
theorem c2_bringToFront_assignment_witness :
    ((bringToFront sTwo 1).get? 1).map Overlay.zIndex = some 202 :=
  ((c2_bringToFront_assignment sTwo 1 (mkOverlay 1 false 200) (by decide)).1
    (mkOverlay 2 false 201) (by decide)).1

/-- Claim C9: `bringToFront` is idempotent; with no interleaving change of the
document state, a second call recomputes the same frontmost other instance
and reassigns exactly the same values, leaving the state fixed. -/
theorem c9_bringToFront_idempotent (s : State) (i : Nat) :
    bringToFront (bringToFront s i) i = bringToFront s i := by
  cases hO : ((attachedInstances s).filter (fun o => o.id != i)).getLast? with
  | some f =>
    have h1 := bringToFront_eq_some s i f hO
    have hO2 : ((attachedInstances (bringToFront s i)).filter
        (fun o => o.id != i)).getLast? = some f := by
      rw [h1, others_updateOverlay s i (setZIndex (some (f.zIndex + 1)))
        (fun o => rfl) (fun o => rfl), hO]
    rw [bringToFront_eq_some (bringToFront s i) i f hO2, h1]
    exact updateOverlay_updateOverlay s i _ (fun o => rfl)
      (setZIndex_setZIndex (some (f.zIndex + 1)))
  | none =>
    have h1 := bringToFront_eq_none s i hO
    have hO2 : ((attachedInstances (bringToFront s i)).filter
        (fun o => o.id != i)).getLast? = none := by
      rw [h1, others_updateOverlay s i (setZIndex none) (fun o => rfl) (fun o => rfl), hO]
    rw [bringToFront_eq_none (bringToFront s i) i hO2, h1]
    exact updateOverlay_updateOverlay s i _ (fun o => rfl) (setZIndex_setZIndex none)

/-- Two attached modal overlays over a body whose pointer-events is unset. -/
def sC3 : State :=
  { all := [mkOverlay 1 false 200, mkOverlay 2 false 201], children := [1, 2], bodyPE := "" }

/-- Against C3 as stated: overlay 1 and overlay 2 are both modal; overlay 1
enters modal state first (recording the prior body value `""`), then
overlay 2 enters (recording nothing).  Closing overlay 1 out of order — while
modal overlay 2 is still attached, open and not closing — restores the body
pointer-events to `""`, so the body is not left disabled. -/
theorem c3_counterexample :
    (exitModalState (enterModalState (enterModalState sC3 1) 2) 1).bodyPE = "" ∧
      ((exitModalState (enterModalState (enterModalState sC3 1) 2) 1).get? 2).map
          (fun o => (o.modeless, o.opened, o.closingAttr)) = some (false, true, false) ∧
      (exitModalState (enterModalState (enterModalState sC3 1) 2) 1).children = [1, 2] := by
  decide

/-- Claim C3 (amended): on exit of modal state the document-body
pointer-events value is restored exactly when the exiting surface itself
recorded a prior value (i.e. it was the surface that disabled the body); a
modal surface that recorded nothing leaves the body value unchanged.  In
particular closing a later modal surface while the recording one is open
leaves the body disabled, but closing the recording surface restores the
body value even when another modal surface is still open. -/
theorem c3_body_restore_amended (s : State) (i : Nat) (o : Overlay)
    (h : s.get? i = some o) :
    (∀ v, o.prevDocPE = some v → (exitModalState s i).bodyPE = v) ∧
      (o.prevDocPE = none → (exitModalState s i).bodyPE = s.bodyPE) := by
  constructor
  · intro v hv
    rw [exitModalState_bodyPE s i o h, hv]
  · intro hv
    rw [exitModalState_bodyPE s i o h, hv]

/-- An overlay that recorded body pointer-events `"auto"` before disabling. -/
def oRec : Overlay := { mkOverlay 1 false 200 with prevDocPE := some "auto" }

/-- The recording overlay attached alone, body disabled. -/
def sRec : State := { all := [oRec], children := [1], bodyPE := "none" }

/-- Witness for the amended C3: the recording overlay restores `"auto"`. -/
theorem c3_body_restore_amended_witness :
    sRec.get? 1 = some oRec ∧ (exitModalState sRec 1).bodyPE = "auto" :=
  ⟨by decide, (c3_body_restore_amended sRec 1 oRec (by decide)).1 "auto" (by decide)⟩

/-- Claim C10: only the overlay that recorded the prior body pointer-events
value ever writes it back.  Entering modal state while the body is already
`'none'` records nothing (`_previousDocumentPointerEvents` stays as it was)
and leaves the body style untouched, and exiting modal state with nothing
recorded leaves the body style untouched. -/
theorem c10_recorder_only_writes (s : State) (i : Nat) (o : Overlay)
    (h : s.get? i = some o) :
    (s.bodyPE = "none" →
        (enterModalState s i).bodyPE = s.bodyPE ∧
          ((enterModalState s i).get? i).map Overlay.prevDocPE = some o.prevDocPE) ∧
      (o.prevDocPE = none → (exitModalState s i).bodyPE = s.bodyPE) := by
  constructor
  · intro hb
    have he : enterModalState s i = { s with all := s.all.map (fun p =>
        if (((attachedInstances s).filter (fun q => q.id != i)).map Overlay.id).contains p.id
        then { p with partPointerEvents := some "none" } else p) } := by
      unfold enterModalState
      rw [if_neg (by simp [hb])]
    rw [he]
    refine ⟨rfl, ?_⟩
    rw [get?_mapAll s _ (fun p => by split <;> rfl) i, h]
    simp only [Option.map_some', Option.some.injEq]
    split <;> rfl
  · intro hv
    rw [exitModalState_bodyPE s i o h, hv]

/-- Witness for C10 on a second modal overlay entering over a disabled body
and exiting without having recorded anything. -/
theorem c10_recorder_only_writes_witness :
    sTwo.bodyPE = "none" ∧
      ((enterModalState sTwo 2).bodyPE = sTwo.bodyPE ∧
        ((enterModalState sTwo 2).get? 2).map Overlay.prevDocPE = some none) ∧
      (exitModalState sTwo 2).bodyPE = sTwo.bodyPE := by
  have hc := c10_recorder_only_writes sTwo 2 (mkOverlay 2 false 201) (by decide)
  exact ⟨rfl, hc.1 rfl, hc.2 rfl⟩

/-- Claim C5: a document click whose composed path does not include this
overlay's `[part="overlay"]` element, with no preceding mousedown or mouseup
inside it, is ignored entirely by an overlay that is not the topmost one:
no `vaadin-overlay-outside-click` event is dispatched, no close happens, and
the state is left unchanged. -/
theorem c5_outside_click_ignored (s : State) (i : Nat) (o : Overlay)
    (outsidePrev closePrev : Bool) (h : s.get? i = some o)
    (hdown : o.mouseDownInside = false) (hup : o.mouseUpInside = false)
    (hlast : isLast s i = false) :
    outsideClickListener s i false outsidePrev closePrev = (s, []) := by
  unfold outsideClickListener
  rw [h]
  simp [hdown, hup, hlast]

/-- Witness for C5: overlay 1 sits below topmost overlay 2 and ignores an
outside click even with all listener oracles trying to act. -/
theorem c5_outside_click_ignored_witness :
    isLast sTwo 1 = false ∧ outsideClickListener sTwo 1 false true true = (sTwo, []) :=
  ⟨by decide, c5_outside_click_ignored sTwo 1 (mkOverlay 1 false 200) true true
    (by decide) rfl rfl (by decide)⟩

/-- Against C6 as stated: on a topmost modal overlay, an Escape keydown whose
escape-press notification is NOT canceled still leaves the overlay open when
a listener cancels the subsequent `vaadin-overlay-close` notification, so
"closed iff the escape notification was not canceled" fails on the code. -/
theorem c6_counterexample :
    (keydownListener sTwo 2 false "Escape" false true).2 =
        [⟨EvKind.escapePress, true⟩, ⟨EvKind.closeEvt, true⟩] ∧
      ((keydownListener sTwo 2 false "Escape" false true).1.get? 2).map Overlay.opened =
        some true := by
  decide

/-- Claim C6 (amended): an Escape keydown on a topmost, open, modal surface
always dispatches the cancelable escape-press notification, regardless of
where focus is (whether or not the event path includes the overlay part), and
the surface's `opened` flag becomes `false` exactly when neither the
escape-press notification nor the `vaadin-overlay-close` notification is
canceled by a listener. -/
theorem c6_escape_closes_amended (s : State) (i : Nat) (o : Overlay)
    (inPath escPrev closePrev : Bool) (h : s.get? i = some o)
    (hmodal : o.modeless = false) (hlast : isLast s i = true) (hopen : o.opened = true) :
    (⟨EvKind.escapePress, true⟩ : Ev) ∈ (keydownListener s i inPath "Escape" escPrev closePrev).2 ∧
      (((keydownListener s i inPath "Escape" escPrev closePrev).1.get? i).map Overlay.opened =
          some false ↔ escPrev = false ∧ closePrev = false) := by
  have hoid : o.id = i := by
    have := List.find?_some h
    simpa using this
  unfold keydownListener
  rw [h]
  cases escPrev <;> cases closePrev <;>
    simp [hlast, hmodal, hopen, hoid, closeOverlay,
      get?_updateOverlay s i (fun p => { p with opened := false }) (fun p => rfl) i, h]

/-- Witness for the amended C6: on the topmost modal overlay with no listener
canceling anything, Escape dispatches the escape press and closes. -/
theorem c6_escape_closes_amended_witness :
    isLast sTwo 2 = true ∧
      ((⟨EvKind.escapePress, true⟩ : Ev) ∈ (keydownListener sTwo 2 false "Escape" false false).2 ∧
        (((keydownListener sTwo 2 false "Escape" false false).1.get? 2).map Overlay.opened =
            some false ↔ false = false ∧ false = false)) :=
  ⟨by decide, c6_escape_closes_amended sTwo 2 (mkOverlay 2 false 201) false false false
    (by decide) rfl (by decide) rfl⟩

/-- Reduction of the focus-restoration decision in `_animatedClosing` for an
attached overlay with restoration enabled and only the captured node as
target. -/
theorem animatedClosing_focus_red (s : State) (i : Nat) (o : Overlay) (t : Nat)
    (ctx : ClosingCtx) (h : s.get? i = some o) (hph : o.placeholder = true)
    (hop : o.openingAttr = false) (hrfc : o.restoreFocusOnClose = true)
    (hnode : o.restoreFocusNode = none) (hcap : o.capturedFocusNode = some t) :
    (animatedClosing s i ctx).focusScheduled =
      (if ctx.active == ctx.body || deepContains ctx.dom i ctx.active then some t
       else none) := by
  unfold animatedClosing
  rw [h]
  simp [hop, hph, hnode, hcap, hrfc, Option.or]

/-- Claim C7: on close with focus restoration enabled and a restore target
captured at open time, `_animatedClosing` schedules `focus()` on the captured
target exactly when the active element is the document body or is
deep-contained (through shadow boundaries) in the closing overlay; in all
other cases no focus call is scheduled and focus stays where the user put
it. -/
theorem c7_focus_restore (s : State) (i : Nat) (o : Overlay) (t : Nat) (ctx : ClosingCtx)
    (h : s.get? i = some o) (hph : o.placeholder = true) (hop : o.openingAttr = false)
    (hrfc : o.restoreFocusOnClose = true) (hnode : o.restoreFocusNode = none)
    (hcap : o.capturedFocusNode = some t) :
    ((animatedClosing s i ctx).focusScheduled = some t ↔
        (ctx.active = ctx.body ∨ deepContains ctx.dom i ctx.active = true)) ∧
      ((ctx.active ≠ ctx.body ∧ deepContains ctx.dom i ctx.active = false) →
        (animatedClosing s i ctx).focusScheduled = none) := by
  have hred := animatedClosing_focus_red s i o t ctx h hph hop hrfc hnode hcap
  constructor
  · rw [hred]
    by_cases hc : (ctx.active == ctx.body || deepContains ctx.dom i ctx.active) = true
    · rw [if_pos hc]
      simp only [true_iff, iff_true]
      simpa using hc
    · rw [if_neg hc]
      constructor
      · intro hcontra
        exact absurd hcontra (by simp)
      · intro hor
        exfalso
        apply hc
        rcases hor with hb | hd
        · simp [hb]
        · simp [hd]
  · intro hno
    rw [hred, if_neg]
    simp only [Bool.or_eq_true, not_or]
    constructor
    · simp [hno.1]
    · simp [hno.2]

/-- Node tree for the C7 witness: every node isolated, document node 99. -/
def domW : Dom := { parentNode := fun _ => none, host := fun _ => none, doc := 99, fuel := 3 }

/-- Closing context for the C7 witness: the active element is the body. -/
def ctxW : ClosingCtx := { dom := domW, active := 50, body := 50, shouldAnimate := false }

/-- The closing overlay of the C7 witness: restoration enabled, node 7
captured at open time. -/
def oC7 : Overlay :=
  { mkOverlay 1 false 200 with restoreFocusOnClose := true, capturedFocusNode := some 7 }

/-- State for the C7 witness. -/
def sC7 : State := { all := [oC7], children := [1], bodyPE := "" }

/-- Witness for C7: with focus on the document body, closing schedules a
focus call on the captured node 7. -/
theorem c7_focus_restore_witness : (animatedClosing sC7 1 ctxW).focusScheduled = some 7 :=
  (c7_focus_restore sC7 1 oC7 7 ctxW (by decide) rfl rfl rfl rfl rfl).1.mpr (Or.inl rfl)

/-! Projection lemmas used for the reopen-while-closing analysis. -/

theorem get?_setChildren (s : State) (c : List Nat) (j : Nat) :
    State.get? { s with children := c } j = s.get? j := rfl

theorem get?_setBodyPE (s : State) (v : String) (j : Nat) :
    State.get? { s with bodyPE := v } j = s.get? j := rfl

theorem bringToFront_children (s : State) (i : Nat) :
    (bringToFront s i).children = s.children := by
  cases hx : ((attachedInstances s).filter (fun o => o.id != i)).getLast? with
  | some f => rw [bringToFront_eq_some s i f hx]; rfl
  | none => rw [bringToFront_eq_none s i hx]; rfl

theorem enterModalState_children (s : State) (i : Nat) :
    (enterModalState s i).children = s.children := by
  unfold enterModalState
  by_cases hb : s.bodyPE ≠ "none"
  · rw [if_pos hb]
    rfl
  · rw [if_neg hb]

theorem animatedOpeningTail_children (s : State) (i : Nat) (m b : Bool) :
    (animatedOpeningTail s i m b).children = s.children.filter (fun c => c != i) ++ [i] := by
  unfold animatedOpeningTail attachOverlay
  cases m <;> cases b <;>
    simp [updateOverlay_children, enterModalState_children, bringToFront_children]

/-- Lookup of the overlay after its pending closing handler has been
flushed: `_finishClosing` ran, the handler is gone. -/
theorem flushClosing_get? (s : State) (i : Nat) (o : Overlay) (h : s.get? i = some o)
    (hh : o.closingHandler = true) :
    (flushClosing s i).get? i =
      some
        { o with
          placeholder := false,
          partPointerEvents := none,
          closingAttr := false,
          closingHandler := false } := by
  have hoid : o.id = i := by
    have := List.find?_some h
    simpa using this
  unfold flushClosing
  rw [h]
  simp only [hh, if_true]
  rw [get?_updateOverlay _ i (fun p => { p with closingHandler := false }) (fun p => rfl) i]
  unfold finishClosing
  rw [get?_setChildren,
    get?_updateOverlay s i
      (fun p =>
        { p with
          placeholder := false,
          partPointerEvents := none,
          closingAttr := false })
      (fun p => rfl) i, h]
  simp [hoid]

/-- Children after flushing the pending closing handler: the overlay has
been detached from `document.body`. -/
theorem flushClosing_children (s : State) (i : Nat) (o : Overlay) (h : s.get? i = some o)
    (hh : o.closingHandler = true) :
    (flushClosing s i).children = s.children.filter (fun c => c != i) := by
  unfold flushClosing
  rw [h]
  simp only [hh, if_true]
  rw [updateOverlay_children]
  unfold finishClosing
  rfl

/-- Claim C8: reopening an overlay whose exit animation is in flight (it is
still a body child, has the `closing` attribute and a pending closing
handler) first flushes that exit synchronously — `_animatedOpening` equals
the plain opening run on the flushed state; the flushed state has the
overlay detached with the closing state fully cleared — and then reattaches:
afterwards the overlay is a body child again.  The model is total, so no
error is raised, and the attach runs exactly once, from the detached state. -/
theorem c8_reopen_flushes_exit (s : State) (i : Nat) (o : Overlay) (b : Bool)
    (h : s.get? i = some o) (hcl : o.closingAttr = true) (hh : o.closingHandler = true)
    (hin : s.children.contains i = true) :
    animatedOpening s i b = animatedOpening (flushClosing s i) i b ∧
      (flushClosing s i).children.contains i = false ∧
      ((flushClosing s i).get? i).map Overlay.closingAttr = some false ∧
      ((flushClosing s i).get? i).map Overlay.closingHandler = some false ∧
      (animatedOpening s i b).children.contains i = true := by
  have hg := flushClosing_get? s i o h hh
  have hmem : i ∈ s.children := by simpa using hin
  have hL : animatedOpening s i b = animatedOpeningTail (flushClosing s i) i o.modeless b := by
    unfold animatedOpening
    rw [h]
    simp [hmem, hcl]
  have hR : animatedOpening (flushClosing s i) i b =
      animatedOpeningTail (flushClosing s i) i o.modeless b := by
    unfold animatedOpening
    rw [hg]
    simp
  refine ⟨hL.trans hR.symm, ?_, ?_, ?_, ?_⟩
  · rw [flushClosing_children s i o h hh]
    simp
  · rw [hg]
    rfl
  · rw [hg]
    rfl
  · rw [hL, animatedOpeningTail_children]
    simp

/-- Overlay mid exit-animation for the C8 witness: still a body child, with
the `closing` attribute set and the closing handler pending. -/
def oC8 : Overlay := { mkOverlay 1 false 200 with closingAttr := true, closingHandler := true }

/-- State with the closing-in-flight overlay still attached. -/
def sC8 : State := { all := [oC8], children := [1], bodyPE := "" }

/-- Witness for C8: flushing detaches the overlay, and the reopening run
leaves it attached again. -/
theorem c8_reopen_flushes_exit_witness :
    (flushClosing sC8 1).children.contains 1 = false ∧
      (animatedOpening sC8 1 false).children.contains 1 = true := by
  have H := c8_reopen_flushes_exit sC8 1 oC8 false (by decide) rfl rfl (by decide)
  exact ⟨H.2.1, H.2.2.2.2⟩

/-- The first modal reached by the `_exitModalState` walk is topmost among
the remaining surfaces: every modal in the reversed remaining list has a
`__zIndex` not exceeding that of the head of its modal suffix. -/
theorem exitWalk_topmost_modal (s : State) (i : Nat) :
    ∀ m ∈ (attachedInstances s).reverse.filter (fun p => p.id != i), m.modeless = false →
      ∀ t ∈ (((attachedInstances s).reverse.filter (fun p => p.id != i)).dropWhile
          (fun p => p.modeless)).take 1, m.zIndex ≤ t.zIndex := by
  intro m hm hmod t ht
  have hpw : List.Pairwise (fun a b => zle b a)
      ((attachedInstances s).reverse.filter (fun p => p.id != i)) :=
    List.Pairwise.filter _ (List.pairwise_reverse.mpr (sorted_attachedInstances s))
  cases hd : ((attachedInstances s).reverse.filter (fun p => p.id != i)).dropWhile
      (fun p => p.modeless) with
  | nil =>
    rw [hd] at ht
    simp at ht
  | cons t0 r =>
    rw [hd] at ht
    simp only [List.take, List.mem_singleton] at ht
    subst ht
    have hpwd : List.Pairwise (fun a b => zle b a) (t :: r) := by
      rw [← hd]
      exact List.Pairwise.sublist (List.dropWhile_sublist _) hpw
    have hmem2 := hm
    rw [← List.takeWhile_append_dropWhile (fun p => p.modeless)
      ((attachedInstances s).reverse.filter (fun p => p.id != i))] at hmem2
    rcases List.mem_append.mp hmem2 with h1 | h2
    · have := List.mem_takeWhile_imp h1
      rw [hmod] at this
      exact absurd this (by simp)
    · rw [hd] at h2
      rcases List.mem_cons.mp h2 with rfl | hr
      · exact le_refl _
      · exact List.rel_of_pairwise_cons hpwd hr

/-- Reduction of the restore step when the overlay object is missing. -/
theorem exitRestore_eq_missing (s : State) (i : Nat) (h : s.get? i = none) :
    exitRestore s i = s := by
  unfold exitRestore
  rw [h]

/-- Reduction of the restore step when nothing was recorded. -/
theorem exitRestore_eq_none (s : State) (i : Nat) (o : Overlay) (h : s.get? i = some o)
    (hp : o.prevDocPE = none) : exitRestore s i = s := by
  unfold exitRestore
  rw [h]
  simp [hp]

/-- Reduction of the restore step when a previous value was recorded. -/
theorem exitRestore_eq_some (s : State) (i : Nat) (o : Overlay) (v : String)
    (h : s.get? i = some o) (hp : o.prevDocPE = some v) :
    exitRestore s i =
      { updateOverlay s i (fun p => { p with prevDocPE := none }) with bodyPE := v } := by
  unfold exitRestore
  rw [h]
  simp [hp]

/-- The walk of `_exitModalState` is not affected by the preceding body
pointer-events restore step. -/
theorem exitWalk_exitRestore (s : State) (i : Nat) :
    exitWalk i (attachedInstances (exitRestore s i)).reverse =
      exitWalk i (attachedInstances s).reverse := by
  rcases hg : s.get? i with _ | o
  · rw [exitRestore_eq_missing s i hg]
  · rcases hp : o.prevDocPE with _ | v
    · rw [exitRestore_eq_none s i o hg hp]
    · rw [exitRestore_eq_some s i o v hg hp, attachedInstances_setBodyPE,
        attachedInstances_updateOverlay s i (fun p => { p with prevDocPE := none })
          (fun p => rfl) (fun p => rfl) (fun p => rfl),
        ← List.map_reverse]
      exact exitWalk_map i _ (fun p => by split <;> rfl) (fun p => by split <;> rfl) _

/-- Lookup projection through the body-restore step of `_exitModalState`. -/
theorem exitRestore_get?_proj (s : State) (i j : Nat) :
    ((exitRestore s i).get? j).map (fun p => (p.id, p.partPointerEvents)) =
      (s.get? j).map (fun p => (p.id, p.partPointerEvents)) := by
  rcases hg : s.get? i with _ | o
  · rw [exitRestore_eq_missing s i hg]
  · rcases hp : o.prevDocPE with _ | v
    · rw [exitRestore_eq_none s i o hg hp]
    · rw [exitRestore_eq_some s i o v hg hp, get?_setBodyPE,
        get?_updateOverlay s i (fun p => { p with prevDocPE := none }) (fun p => rfl) j]
      cases hj : s.get? j with
      | none => rfl
      | some p =>
        simp only [Option.map_some']
        split <;> rfl

/-- Pointer-events of every overlay after `_exitModalState`: removed exactly
for the overlays collected by the walk, untouched otherwise. -/
theorem exitModalState_get?_partPE (s : State) (i j : Nat) (p : Overlay)
    (hj : s.get? j = some p) :
    ((exitModalState s i).get? j).map Overlay.partPointerEvents =
      some (if (exitWalk i (attachedInstances s).reverse).contains j then none
            else p.partPointerEvents) := by
  have hjid : p.id = j := by
    have := List.find?_some hj
    simpa using this
  have h1 : ((exitRestore s i).get? j).map (fun q => (q.id, q.partPointerEvents)) =
      some (p.id, p.partPointerEvents) := by
    rw [exitRestore_get?_proj, hj]
    rfl
  obtain ⟨q, hq, hqid, hqpe⟩ : ∃ q, (exitRestore s i).get? j = some q ∧ q.id = p.id ∧
      q.partPointerEvents = p.partPointerEvents := by
    cases hq : (exitRestore s i).get? j with
    | none =>
      rw [hq] at h1
      simp at h1
    | some q =>
      rw [hq] at h1
      simp only [Option.map_some', Option.some.injEq, Prod.mk.injEq] at h1
      exact ⟨q, rfl, h1.1, h1.2⟩
  simp only [exitModalState]
  rw [get?_mapAll _ _ (fun r => by split <;> rfl) j, hq]
  simp only [Option.map_some']
  rw [exitWalk_exitRestore s i, hqid, hjid]
  by_cases hc : (exitWalk i (attachedInstances s).reverse).contains j = true
  · have hc' : j ∈ exitWalk i (attachedInstances s).reverse := by simpa using hc
    simp [hc, hc']
  · have hc' : j ∉ exitWalk i (attachedInstances s).reverse := by simpa using hc
    simp [hc, hc', hqpe]

/-- Claim C4: when a non-modeless surface exits modal state, the remaining
attached instances (all but the exiting one, walked topmost to bottommost)
have pointer events re-enabled on exactly the leading modeless ones plus the
first non-modeless one reached, then the walk stops; that modal is the new
topmost modal relative to the remaining surfaces (its `__zIndex` dominates
every remaining modal), even when the exiting surface was not the topmost;
and `_exitModalState` removes the `pointer-events` property exactly on the
overlays the walk collects. -/
theorem c4_exit_walk_reenables (s : State) (i : Nat) (o : Overlay)
    (h : s.get? i = some o) (hmod : o.modeless = false) :
    (exitWalk i (attachedInstances s).reverse =
        ((((attachedInstances s).reverse.filter (fun p => p.id != i)).takeWhile
            (fun p => p.modeless)) ++
          (((attachedInstances s).reverse.filter (fun p => p.id != i)).dropWhile
            (fun p => p.modeless)).take 1).map Overlay.id) ∧
      (∀ m ∈ (attachedInstances s).reverse.filter (fun p => p.id != i), m.modeless = false →
        ∀ t ∈ (((attachedInstances s).reverse.filter (fun p => p.id != i)).dropWhile
            (fun p => p.modeless)).take 1, m.zIndex ≤ t.zIndex) ∧
      (∀ j p, s.get? j = some p →
        ((exitModalState s i).get? j).map Overlay.partPointerEvents =
          some (if (exitWalk i (attachedInstances s).reverse).contains j then none
                else p.partPointerEvents)) :=
  ⟨exitWalk_eq i (attachedInstances s).reverse, exitWalk_topmost_modal s i,
    fun j p hj => exitModalState_get?_partPE s i j p hj⟩

/-- An attached overlay whose `[part="overlay"]` pointer events are disabled,
for the C4 witness stack. -/
def oW (n : Nat) (ml : Bool) (z : Int) : Overlay :=
  { mkOverlay n ml z with partPointerEvents := some "none" }

/-- Witness stack for C4: modal 1 (bottom), modeless 2, modal 3, modeless 4
(top); overlay 1 is the exiting modal, closed out of order. -/
def sFour : State :=
  { all := [oW 1 false 200, oW 2 true 201, oW 3 false 202, oW 4 true 203],
    children := [1, 2, 3, 4], bodyPE := "none" }

/-- Witness for C4: exiting modal 1 re-enables the top modeless overlay 4 and
the new topmost modal 3, and leaves modeless overlay 2 below it disabled. -/
theorem c4_exit_walk_reenables_witness :
    exitWalk 1 (attachedInstances sFour).reverse = [4, 3] ∧
      ((exitModalState sFour 1).get? 3).map Overlay.partPointerEvents = some none ∧
      ((exitModalState sFour 1).get? 2).map Overlay.partPointerEvents =
        some (some "none") := by
  have H := c4_exit_walk_reenables sFour 1 (oW 1 false 200) (by decide) rfl
  refine ⟨?_, ?_, ?_⟩
  · rw [H.1]
    decide
  · rw [H.2.2 3 (oW 3 false 202) (by decide)]
    decide
  · rw [H.2.2 2 (oW 2 true 201) (by decide)]
    decide
